import Mathlib

/-!
Verification of the response-decision pipeline of the Dinchatbot backend.

Shallow embedding of:
* `app/services/rule_engine.py` — text normalization, intent catalog,
  keyword matching (`RuleEngine`);
* `app/services/ai_service.py` — `GeminiService.check_rate_limit`,
  `GeminiService.get_response`, `GeminiService._build_system_prompt`;
* `app/api/chat.py` — the `chat` endpoint (the fallback orchestrator).

Modelling conventions:
* Strings are Lean `String`s; character-level work happens on `String.data`
  (`List Char`), which mirrors Python's sequence-of-code-points view.
* Python's Unicode-aware `\w` / `str.lower()` are modelled on the alphabet the
  program actually uses (ASCII plus the Latin-1 letter block, which covers the
  Danish letters å/æ/ø/é of the catalog).
* The database session is an association list of clients; the history store,
  knowledge store and the Gemini completion capability are inputs of the run
  (an `Except` value models "returns normally" vs "raises").
* `pydantic`'s `ChatResponse` defaults (`intent=None`, `is_ai=False`,
  `is_fallback=False`, `tokens_used=None`) are written out explicitly at each
  construction site; extra dict keys (`model`, `cost`, `error`) that pydantic
  ignores are not modelled.
-/

/-! ## Text utilities (rule_engine.py `_normalize`, Python `str.strip`) -/

/-- Python `\s` / `str.split()` whitespace, restricted to the ASCII range. -/
def isPyWs (c : Char) : Bool :=
  c == ' ' || c == '\t' || c == '\n' || c == '\r' || c == '\x0b' || c == '\x0c'

/-- Python regex `\w` (word character), restricted to ASCII + Latin-1:
letters/digits/underscore, plus the Latin-1 letter block U+00C0–U+00FF minus
the two operators × U+00D7 and ÷ U+00F7.  Covers å/æ/ø/é used by the catalog. -/
def isWordChar (c : Char) : Bool :=
  c.isAlphanum || c == '_' || (('À' ≤ c && c ≤ 'ÿ') && c != '×' && c != '÷')

/-- Python `str.lower()` on the same alphabet: ASCII A–Z and the Latin-1
uppercase block U+00C0–U+00DE (minus ×) map down by 32. -/
def lowerChar (c : Char) : Char :=
  if 'A' ≤ c && c ≤ 'Z' then Char.ofNat (c.toNat + 32)
  else if 'À' ≤ c && c ≤ 'Þ' && c != '×' then Char.ofNat (c.toNat + 32)
  else c

/-- `re.sub(r'[^\w\s]', ' ', text)` acting on one character. -/
def punctToSpace (c : Char) : Char :=
  if isWordChar c || isPyWs c then c else ' '

/-- Python `str.split()` (split on whitespace runs, dropping empty pieces);
`acc` holds the current word reversed. -/
def splitWsAux : List Char → List Char → List (List Char)
  | [], acc => if acc.isEmpty then [] else [acc.reverse]
  | c :: rest, acc =>
    if isPyWs c then
      if acc.isEmpty then splitWsAux rest [] else acc.reverse :: splitWsAux rest []
    else splitWsAux rest (c :: acc)

/-- Python `text.split()`. -/
def splitWords (l : List Char) : List (List Char) := splitWsAux l []

/-- `RuleEngine._normalize` (rule_engine.py lines 191–202): lowercase,
punctuation to spaces, whitespace collapsed via `' '.join(text.split())`. -/
def normalizeList (l : List Char) : List Char :=
  List.intercalate [' '] (splitWords ((l.map lowerChar).map punctToSpace))

/-- Python `str.strip()` on a character list. -/
def stripList (l : List Char) : List Char :=
  ((l.dropWhile isPyWs).reverse.dropWhile isPyWs).reverse

/-- Python `str.strip()` (chat.py line 66). -/
def pyStrip (s : String) : String := ⟨stripList s.data⟩

/-- `len(x.split())` — the word count used for the token estimate
(ai_service.py line 92). -/
def wordCount (s : String) : Nat := (splitWords s.data).length

/-! ## Whole-word keyword search (`re.search(r'\b'+re.escape(kw)+r'\b', msg)`) -/

/-- Is the character at index `i` a word character? (`false` out of range). -/
def wordAt (l : List Char) (i : Nat) : Bool :=
  match l[i]? with
  | some c => isWordChar c
  | none => false

/-- The regex word boundary `\b` at gap position `i` (between indices `i-1`
and `i`): word-ness differs across the gap, out-of-range counting as
non-word. -/
def boundaryAt (l : List Char) (i : Nat) : Bool :=
  if i == 0 then wordAt l 0 else wordAt l i != wordAt l (i - 1)

/-- Literal list-of-characters head match (the `re.escape(kw)` part). -/
def beginsWith : List Char → List Char → Bool
  | [], _ => true
  | _ :: _, [] => false
  | a :: as, b :: bs => a == b && beginsWith as bs

/-- `re.search(r'\b' + re.escape(kw) + r'\b', msg) is not None`
(rule_engine.py lines 213–214): some start position has a boundary before the
match, the literal keyword, and a boundary after it. -/
def kwSearch (kw msg : List Char) : Bool :=
  (List.range (msg.length + 1)).any fun i =>
    boundaryAt msg i && boundaryAt msg (i + kw.length) && beginsWith kw (msg.drop i)

/-! ## Intent catalog (rule_engine.py `RuleEngine.__init__`, lines 16–151) -/

structure Intent where
  name : String
  keywords : List String
  response_template : String
  priority : Nat
deriving DecidableEq

def greetingIntent : Intent :=
  { name := "greeting"
    keywords := ["hej", "goddag", "hello", "hejsa", "halløj", "hey",
                 "godmorgen", "godaften", "hi", "davs", "dav"]
    response_template := "Hej! Hvordan kan jeg hjælpe dig i dag?"
    priority := 1 }

def openingHoursIntent : Intent :=
  { name := "opening_hours"
    keywords := ["åbningstid", "åbningstider", "åbent", "lukket", "åbner", "lukker",
                 "hvornår åbner", "hvornår lukker", "åben", "lukke",
                 "opening", "hours", "åbent i dag"]
    response_template := "Vi har åbent mandag-fredag kl. 09:00–17:00, weekend 10:00-14:00."
    priority := 2 }

def pricesIntent : Intent :=
  { name := "prices"
    keywords := ["pris", "priser", "koster", "honorar", "tilbud",
                 "hvad koster", "prisoverslag", "betaling", "betale",
                 "kr", "kroner", "betale", "pris på"]
    response_template := "Priser afhænger af den konkrete ydelse. Kontakt os gerne for et skræddersyet tilbud."
    priority := 2 }

def bookingIntent : Intent :=
  { name := "booking"
    keywords := ["book", "booking", "bestil", "aftale", "reservation",
                 "tid", "book en tid", "reservere", "time", "bestille"]
    response_template := "Du kan booke en tid via vores hjemmeside eller ringe til os."
    priority := 2 }

def contactIntent : Intent :=
  { name := "contact"
    keywords := ["kontakt", "telefon", "email", "mail", "nummer", "ring",
                 "tlf", "ringe", "kontakte", "få fat i"]
    response_template := "Du kan kontakte os på telefon +45 12 34 56 78 eller via email kontakt@example.dk."
    priority := 2 }

def locationIntent : Intent :=
  { name := "location"
    keywords := ["adresse", "lokation", "finde jer", "hvor ligger",
                 "parkering", "adresse", "beliggenhed", "hvor er",
                 "placering", "hvordan finder jeg"]
    response_template := "Vi holder til på Eksempelvej 12, 1234 By. Der er gratis parkering ved bygningen."
    priority := 2 }

def servicesIntent : Intent :=
  { name := "services"
    keywords := ["ydelse", "ydelser", "service", "services", "tilbud",
                 "laver i", "kan i", "gør i", "hvad laver"]
    response_template := "Vi tilbyder [indsæt jeres ydelser]. Kontakt os for mere information om en specifik ydelse."
    priority := 2 }

def shippingIntent : Intent :=
  { name := "shipping"
    keywords := ["forsendelse", "levering", "fragt", "leveringstid",
                 "track", "tracking", "sendelse", "levere"]
    response_template := "Vi leverer typisk inden for 1–3 hverdage. Du modtager tracking når pakken er afsendt."
    priority := 2 }

def returnsIntent : Intent :=
  { name := "returns"
    keywords := ["returnering", "retur", "bytte", "refusion", "fortryd",
                 "returnere", "ombytning", "penge retur"]
    response_template := "Du har 14 dages returret. Kontakt os, så guider vi dig gennem processen."
    priority := 2 }

def orderStatusIntent : Intent :=
  { name := "order_status"
    keywords := ["ordre", "ordrenummer", "min ordre", "ordrestatus",
                 "bestilling", "min bestilling", "status", "hvor er"]
    response_template := "Send gerne dit ordrenummer, så kan vi hjælpe dig med at finde din ordre."
    priority := 2 }

def paymentsIntent : Intent :=
  { name := "payments"
    keywords := ["betaling", "betalingsmetoder", "kort", "mobilepay",
                 "faktura", "betale", "betalingsmulighed", "betale med"]
    response_template := "Vi tager imod kortbetaling, MobilePay og faktura."
    priority := 2 }

def goodbyeIntent : Intent :=
  { name := "goodbye"
    keywords := ["farvel", "hej hej", "tak", "tak for hjælpen",
                 "bye", "goodbye", "ses", "god dag"]
    response_template := "Tak fordi du skrev! Kontakt os gerne igen hvis du har flere spørgsmål."
    priority := 1 }

def helpIntent : Intent :=
  { name := "help"
    keywords := ["hjælp", "hjælpe", "support", "kundeservice",
                 "assistance", "problem", "issue"]
    response_template := "Jeg er her for at hjælpe! Hvad kan jeg gøre for dig?"
    priority := 2 }

def humanSupportIntent : Intent :=
  { name := "human_support"
    keywords := ["menneske", "medarbejder", "tale med", "rigtig person",
                 "agent", "support", "kundeservice", "ikke robot"]
    response_template := "Selvfølgelig! Du kan kontakte vores kundeservice på telefon +45 12 34 56 78 eller email kontakt@example.dk."
    priority := 3 }

/-- `self.intents` in catalog definition order (before the constructor sort). -/
def catalog : List Intent :=
  [greetingIntent, openingHoursIntent, pricesIntent, bookingIntent,
   contactIntent, locationIntent, servicesIntent, shippingIntent,
   returnsIntent, orderStatusIntent, paymentsIntent, goodbyeIntent,
   helpIntent, humanSupportIntent]

/-- One step of a stable descending-by-priority insertion: `x` goes in front of
the first element with strictly smaller priority (so earlier-defined intents of
equal priority stay in front of `x`... and `x`, being earlier than everything
already processed, goes in front of equal priorities).  Extensionally this is
Python's stable `list.sort(key=priority, reverse=True)`. -/
def insertIntent (x : Intent) : List Intent → List Intent
  | [] => [x]
  | y :: ys => if y.priority ≤ x.priority then x :: y :: ys else y :: insertIntent x ys

/-- Stable sort, descending by priority (`self.intents.sort(key=..., reverse=True)`,
rule_engine.py line 151). -/
def sortIntents : List Intent → List Intent
  | [] => []
  | x :: xs => insertIntent x (sortIntents xs)

/-- The catalog as iterated by `_match_intent`: sorted once in the constructor,
not per call. -/
def sortedIntents : List Intent := sortIntents catalog

/-- Does `intent` have any keyword matching the normalized message as a whole
word?  (the inner loop of `_match_intent`, rule_engine.py lines 211–214). -/
def intentMatches (it : Intent) (normMsg : List Char) : Bool :=
  it.keywords.any fun k => kwSearch (k.data.map lowerChar) normMsg

/-- `RuleEngine._match_intent` (rule_engine.py lines 204–221): first intent of
the pre-sorted catalog with any matching keyword; evaluation stops there. -/
def matchIntent (normMsg : List Char) : Option Intent :=
  sortedIntents.find? fun it => intentMatches it normMsg

/-- The dict returned by `RuleEngine.get_response`. -/
structure RuleResp where
  reply : String
  intent : Option String
  is_fallback : Bool
deriving DecidableEq

/-- `RuleEngine.get_response` (rule_engine.py lines 153–189). -/
def ruleGetResponse (message : String) : RuleResp :=
  if message = "" then
    { reply := "Skriv gerne en besked, så hjælper jeg 😊"
      intent := none
      is_fallback := true }
  else
    match matchIntent (normalizeList message.data) with
    | some it =>
      { reply := it.response_template, intent := some it.name, is_fallback := false }
    | none =>
      { reply := "Jeg forstod ikke helt. Kan du omformulere, eller vil du gerne tale med en medarbejder?"
        intent := none
        is_fallback := true }

/-! ## Client store and the Usage Gate (ai_service.py `check_rate_limit`) -/

/-- The columns of `app/models/client.py` that the pipeline reads. -/
structure Client where
  is_active : Bool
  use_ai : Bool
  ai_requests_today : Nat
  ai_requests_limit : Nat
  company_name : String
  website_url : String
deriving DecidableEq

/-- The database session, as far as the pipeline observes it: an association
list from client id to client row. -/
def DB := List (String × Client)
deriving instance DecidableEq for DB

/-- `db.query(Client).filter(Client.id == client_id).first()`. -/
def lookupClient : DB → String → Option Client
  | [], _ => none
  | (k, v) :: rest, cid => if k == cid then some v else lookupClient rest cid

/-- Mutating the fetched row followed by `db.commit()`: rewrite the first
entry with the given id. -/
def updateClient : DB → String → (Client → Client) → DB
  | [], _, _ => []
  | (k, v) :: rest, cid, f =>
    if k == cid then (k, f v) :: rest else (k, v) :: updateClient rest cid f

/-- `GeminiService.check_rate_limit` (ai_service.py lines 188–220): unknown
client → `False`; counter at or above the limit → `False`, no mutation;
otherwise increment `ai_requests_today` by one, commit, return `True`. -/
def check_rate_limit (client_id : String) (db : DB) : Bool × DB :=
  match lookupClient db client_id with
  | none => (false, db)
  | some client =>
    if client.ai_requests_limit ≤ client.ai_requests_today then (false, db)
    else
      (true, updateClient db client_id
        fun c => { c with ai_requests_today := c.ai_requests_today + 1 })

/-! ## Gemini service (ai_service.py `get_response`, `_build_system_prompt`) -/

/-- A stored conversation turn (`app/models/conversation.py` rows as read by
chat.py lines 105–108). -/
structure Turn where
  role : String
  content : String
deriving DecidableEq

/-- An entry of the Gemini `start_chat` history (ai_service.py lines 67–70). -/
structure GTurn where
  role : String
  parts : List String
deriving DecidableEq

/-- The `client_info` dict passed by chat.py lines 148–151. -/
structure ClientInfo where
  company_name : String
  website_url : String
deriving DecidableEq

/-- Python `l[-n:]`. -/
def lastN (n : Nat) (l : List α) : List α := l.drop (l.length - n)

/-- ai_service.py lines 61–70: take the last 5 turns of the supplied history
and convert roles for Gemini ("assistant" ↦ "model", everything else ↦
"user"), wrapping the content as `parts`. -/
def buildChatHistory (conversation_history : List Turn) : List GTurn :=
  (lastN 5 conversation_history).map fun t =>
    { role := if t.role == "assistant" then "model" else "user"
      parts := [t.content] }

/-- `GeminiService._build_system_prompt` (ai_service.py lines 128–176).
Note the `[:10]` truncation of the knowledge base at line 167. -/
def buildSystemPrompt (client_id : String) (knowledge_base : List String)
    (client_info : ClientInfo) : String :=
  let company_name :=
    if client_info.company_name = "" then client_id else client_info.company_name
  let website := client_info.website_url
  let base :=
    "Du er en professionel kundeservice chatbot for " ++ company_name ++ ".\n\n" ++
    "DINE OPGAVER:\n" ++
    "1. Svar venligt, præcist og professionelt på kundens spørgsmål\n" ++
    "2. Brug ALTID informationen fra videnbasen nedenfor\n" ++
    "3. Hvis du ikke ved svaret med sikkerhed, vær ærlig og tilbyd at viderestille til en medarbejder\n" ++
    "4. Hold svar korte og præcise (max 100 ord)\n" ++
    "5. Skriv ALTID på dansk\n" ++
    "6. Vær hjælpsom men aldrig opdigtende\n\n" ++
    "REGLER:\n" ++
    "- Giv ALDRIG juridisk, medicinsk eller finansiel rådgivning\n" ++
    "- Fortæl ALDRIG om priser du ikke kender med sikkerhed\n" ++
    "- Lov ALDRIG noget på vegne af virksomheden\n" ++
    "- Hvis usikker: Lad mig viderestille dig til en medarbejder som kan hjælpe bedre\n\n" ++
    "TONE:\n- Professionel men venlig\n- Dansk sprogbrug\n- Kort og konkret\n"
  let withKb :=
    if knowledge_base ≠ [] then
      base ++ "\n\nVIDENBASE (brug denne information til at svare):\n" ++
        String.intercalate "\n\n"
          ((knowledge_base.take 10).enum.map fun p =>
            "--- Side " ++ toString (p.1 + 1) ++ " ---\n" ++ p.2)
    else base
  let withSite :=
    if website ≠ "" then withKb ++ "\n\nVIRKSOMHEDENS HJEMMESIDE: " ++ website
    else withKb
  withSite ++ "\n\nHusk: Hvis du ikke kan svare præcist baseret på videnbasen, vær ærlig og tilbyd at viderestille."

/-- The `ChatResponse` pydantic model of chat.py lines 34–40 (the unused
`suggestions` field, always `None` in the handler, is omitted). -/
structure ChatResponse where
  reply : String
  intent : Option String
  is_ai : Bool
  is_fallback : Bool
  tokens_used : Option Nat
deriving DecidableEq

/-- `GeminiService.get_response` (ai_service.py lines 31–126).  The external
completion capability (`chat.send_message`) is an input: `Except.ok text` for
a normal reply, `Except.error e` when the call raises or times out — the
function's own `try`/`except` turns the latter into the canned AI-error dict,
never re-raising and never retrying. -/
def geminiGetResponse (message : String) (client_id : String)
    (knowledge_base : List String) (conversation_history : List Turn)
    (client_info : ClientInfo) (aiE : Except String String) : ChatResponse :=
  let system_prompt := buildSystemPrompt client_id knowledge_base client_info
  let gemini_history := buildChatHistory conversation_history
  let full_prompt := system_prompt ++ "\n\nUSER SPØRGSMÅL:\n" ++ message ++
    "\n\nSVAR (HUSK: Max 100 ord, på dansk):"
  match aiE with
  | Except.ok reply =>
    { reply := reply
      intent := some "ai_response"
      is_ai := true
      is_fallback := false
      tokens_used := some (wordCount full_prompt + wordCount reply) }
  | Except.error _ =>
    let _ := gemini_history
    { reply := "Der opstod en fejl med AI-tjenesten. Lad mig viderestille dig til en medarbejder."
      intent := none
      is_ai := false
      is_fallback := true
      tokens_used := none }

/-! ## The chat endpoint (chat.py `chat`, lines 43–202) -/

/-- The request fields the handler reads (`msg_index` and `context` are
never used). -/
structure ChatRequest where
  message : String
  client_id : String
  session_id : String
  use_ai : Bool
deriving DecidableEq

deriving instance DecidableEq for Except

/-- An `HTTPException` escaping the handler. -/
structure HErr where
  status : Nat
  detail : String
deriving DecidableEq

/-- The run's external collaborators: the history query of chat.py lines
101–103, the knowledge fetch of lines 137–140 (`knowledge_service`, whose body
is outside this repository's sources; per the spec it may fail with a
store-unavailable condition), and the Gemini completion.  `Except.error`
models the call raising. -/
structure Env where
  historyE : Except Unit (List Turn)
  knowledgeE : Except Unit (List String)
  aiE : Except String String

/-- How many times each external collaborator was invoked during a run. -/
structure Counts where
  history : Nat
  knowledge : Nat
  ai : Nat
deriving DecidableEq

/-- `ChatResponse(reply=r, is_fallback=True)` with pydantic defaults. -/
def mkFallbackResp (r : String) : ChatResponse :=
  { reply := r, intent := none, is_ai := false, is_fallback := true, tokens_used := none }

/-- The reply of the handler's top-level `except Exception` (chat.py
lines 199–202). -/
def catchAllResp : ChatResponse :=
  mkFallbackResp "Der opstod en fejl. Prøv igen senere."

/-- The `chat` endpoint (chat.py lines 43–202): validation, client lookup
(re-raising `HTTPException` 404/403), history query, rule attempt, AI-gate /
knowledge / Gemini chain, final fallback, and the top-level `except Exception`
that converts any raising collaborator into `catchAllResp`.  Returns the HTTP
outcome, the database state after the run, and the collaborator call
counts. -/
def chat (db : DB) (req : ChatRequest) (env : Env) :
    Except HErr ChatResponse × DB × Counts :=
  let message := pyStrip req.message
  if message = "" then
    (Except.ok (mkFallbackResp "Skriv gerne en besked, så hjælper jeg 😊"), db, ⟨0, 0, 0⟩)
  else if 1000 < message.data.length then
    (Except.ok (mkFallbackResp "Beskeden er for lang. Hold den venligst under 1000 tegn."), db, ⟨0, 0, 0⟩)
  else
    match lookupClient db req.client_id with
    | none => (Except.error ⟨404, "Client not found"⟩, db, ⟨0, 0, 0⟩)
    | some client =>
      if client.is_active = false then
        (Except.error ⟨403, "Client is not active"⟩, db, ⟨0, 0, 0⟩)
      else
        match env.historyE with
        | Except.error _ => (Except.ok catchAllResp, db, ⟨1, 0, 0⟩)
        | Except.ok stored =>
          let conversation_history := ((stored.reverse).take 10).reverse
          let rule := ruleGetResponse message
          if rule.is_fallback = false then
            (Except.ok { reply := rule.reply, intent := rule.intent, is_ai := false,
                         is_fallback := false, tokens_used := none }, db, ⟨1, 0, 0⟩)
          else if req.use_ai && client.use_ai then
            match check_rate_limit req.client_id db with
            | (false, db1) =>
              (Except.ok (mkFallbackResp "Du har nået grænsen for AI-forespørgsler i dag. En medarbejder vil kontakte dig snart."),
               db1, ⟨1, 0, 0⟩)
            | (true, db1) =>
              match env.knowledgeE with
              | Except.error _ => (Except.ok catchAllResp, db1, ⟨1, 1, 0⟩)
              | Except.ok kb =>
                (Except.ok (geminiGetResponse message req.client_id kb conversation_history
                    ⟨client.company_name, client.website_url⟩ env.aiE), db1, ⟨1, 1, 1⟩)
          else
            (Except.ok (mkFallbackResp "Jeg forstod ikke helt. Lad mig viderestille dig til en medarbejder."),
             db, ⟨1, 0, 0⟩)

/-- Position of an intent in the catalog's definition order. -/
def defPos (it : Intent) : Nat :=
  (catalog.map Intent.name).findIdx fun n => n == it.name

/-- The (priority descending, definition order ascending) preorder the spec
promises for the matcher. -/
def rankLe (a b : Intent) : Prop :=
  b.priority < a.priority ∨ (a.priority = b.priority ∧ defPos a ≤ defPos b)

instance : DecidableRel rankLe := by
  intro a b
  unfold rankLe
  infer_instance

/-- The gate's increment, as performed by `check_rate_limit`. -/
def incToday (c : Client) : Client :=
  { c with ai_requests_today := c.ai_requests_today + 1 }

/-! ## Concrete run inputs used by witnesses and counterexamples -/

/-- The client row used by concrete runs below. -/
def clientT : Client :=
  { is_active := true, use_ai := true, ai_requests_today := 0,
    ai_requests_limit := 1, company_name := "Acme", website_url := "" }

/-- A client whose daily quota is already exhausted. -/
def clientQuota : Client :=
  { is_active := true, use_ai := true, ai_requests_today := 1,
    ai_requests_limit := 1, company_name := "Acme", website_url := "" }

/-- All collaborators respond normally. -/
def envBase : Env :=
  { historyE := Except.ok [], knowledgeE := Except.ok [], aiE := Except.ok "Her er svaret" }

/-- A message that matches no catalog intent, with AI requested. -/
def reqGibberish : ChatRequest :=
  { message := "xyz", client_id := "t", session_id := "s", use_ai := true }

/-- A greeting message, sent for an unknown client id. -/
def reqHej : ChatRequest :=
  { message := "hej", client_id := "acme", session_id := "s", use_ai := true }

/-- A 1001-character message. -/
def longMsg : String := ⟨List.replicate 1001 'a'⟩

/-! ## Helper lemmas -/

/-- Looking up the id that `updateClient` rewrote sees the rewritten row. -/
theorem lookupClient_updateClient (db : DB) (cid : String) (f : Client → Client) :
    lookupClient (updateClient db cid f) cid = (lookupClient db cid).map f := by
  induction db with
  | nil => rfl
  | cons p rest ih =>
    obtain ⟨k, v⟩ := p
    by_cases h : (k == cid) = true
    · simp [updateClient, lookupClient, h]
    · simp [updateClient, lookupClient, h, ih]

/-- `find?` on a `Pairwise`-ordered list returns an element minimal (up to the
relation) among all members satisfying the predicate. -/
theorem find?_min_of_pairwise {α : Type} {rle : α → α → Prop} {p : α → Bool} :
    ∀ {l : List α}, l.Pairwise rle → ∀ {r}, l.find? p = some r →
      p r = true ∧ ∀ q ∈ l, p q = true → r = q ∨ rle r q := by
  intro l
  induction l with
  | nil => intro _ r hfind; simp at hfind
  | cons x xs ih =>
    intro hp r hfind
    rw [List.pairwise_cons] at hp
    by_cases hx : p x = true
    · rw [List.find?_cons_of_pos _ hx] at hfind
      cases hfind
      refine ⟨hx, ?_⟩
      intro q hq _
      rcases List.mem_cons.mp hq with h | h
      · exact Or.inl h.symm
      · exact Or.inr (hp.1 q h)
    · rw [List.find?_cons_of_neg _ (by simpa using hx)] at hfind
      obtain ⟨hr, hmin⟩ := ih hp.2 hfind
      refine ⟨hr, ?_⟩
      intro q hq hpq
      rcases List.mem_cons.mp hq with h | h
      · exact absurd (h ▸ hpq) hx
      · exact hmin q h hpq

theorem insertIntent_perm (x : Intent) (l : List Intent) :
    (insertIntent x l).Perm (x :: l) := by
  induction l with
  | nil => exact List.Perm.refl _
  | cons y ys ih =>
    by_cases h : y.priority ≤ x.priority
    · simp [insertIntent, h]
    · simp only [insertIntent, if_neg h]
      exact (ih.cons y).trans (List.Perm.swap x y ys)

theorem sortIntents_perm (l : List Intent) : (sortIntents l).Perm l := by
  induction l with
  | nil => exact List.Perm.refl _
  | cons x xs ih =>
    exact (insertIntent_perm x (sortIntents xs)).trans (ih.cons x)

/-- The constructor's sort only reorders the catalog. -/
theorem mem_sortedIntents_iff {q : Intent} : q ∈ sortedIntents ↔ q ∈ catalog :=
  (sortIntents_perm catalog).mem_iff


/-! ## Claim C1 — the Usage Gate -/

/-- Claim C1: `check_rate_limit` returns `false` with no mutation for an
unknown tenant (without raising) and for a tenant whose counter has reached
the daily limit; below the limit it increments `ai_requests_today` by exactly
one and returns `true`; with `ai_requests_limit = 1` two sequential calls for
the same tenant yield `true` then `false`. -/
theorem claim_C1_usage_gate (db : DB) (cid : String) :
    (lookupClient db cid = none → check_rate_limit cid db = (false, db)) ∧
    (∀ c, lookupClient db cid = some c → c.ai_requests_limit ≤ c.ai_requests_today →
      check_rate_limit cid db = (false, db)) ∧
    (∀ c, lookupClient db cid = some c → c.ai_requests_today < c.ai_requests_limit →
      check_rate_limit cid db =
        (true, updateClient db cid
          fun x => { x with ai_requests_today := x.ai_requests_today + 1 })) ∧
    (∀ c, lookupClient db cid = some c → c.ai_requests_today = 0 →
      c.ai_requests_limit = 1 →
      (check_rate_limit cid db).1 = true ∧
      (check_rate_limit cid (check_rate_limit cid db).2).1 = false) := by
  refine ⟨?_, ?_, ?_, ?_⟩
  · intro h; simp [check_rate_limit, h]
  · intro c hc hle; simp [check_rate_limit, hc, hle]
  · intro c hc hlt; simp [check_rate_limit, hc, Nat.not_le.mpr hlt]
  · intro c hc h0 h1
    have hfirst : check_rate_limit cid db =
        (true, updateClient db cid
          fun x => { x with ai_requests_today := x.ai_requests_today + 1 }) := by
      simp [check_rate_limit, hc, h0, h1]
    refine ⟨by rw [hfirst], ?_⟩
    rw [hfirst]
    have hlook : lookupClient
        (updateClient db cid fun x => { x with ai_requests_today := x.ai_requests_today + 1 })
        cid = some { c with ai_requests_today := c.ai_requests_today + 1 } := by
      rw [lookupClient_updateClient, hc]; rfl
    simp [check_rate_limit, hlook, h0, h1]

theorem claim_C1_usage_gate_witness :
    ((check_rate_limit "t" [("t", clientT)]).1 = true ∧
      (check_rate_limit "t" (check_rate_limit "t" [("t", clientT)]).2).1 = false) ∧
    check_rate_limit "missing" [("t", clientT)] = (false, [("t", clientT)]) :=
  ⟨(claim_C1_usage_gate [("t", clientT)] "t").2.2.2 clientT rfl rfl rfl,
   (claim_C1_usage_gate [("t", clientT)] "missing").1 rfl⟩

/-! ## Claim C3 — priority-then-definition order, first match wins -/

/-- Claim C3: the matcher iterates the catalog pre-sorted once at startup
(`sortedIntents`, built in the constructor) and returns the first intent with
any matching keyword; that intent is maximal in (priority descending,
definition order ascending) order among all intents of the catalog with a
matching keyword — strictly higher priority wins, and for equal priorities the
intent defined earlier (smaller `defPos`) wins.  Whenever some catalog intent
matches, a match is returned. -/
theorem claim_C3_priority_then_definition_order :
    (∀ (msg : List Char) (r : Intent), matchIntent msg = some r →
      intentMatches r msg = true ∧
      ∀ q ∈ catalog, intentMatches q msg = true →
        q.priority ≤ r.priority ∧ (q.priority = r.priority → defPos r ≤ defPos q)) ∧
    (∀ msg : List Char, (∃ q ∈ catalog, intentMatches q msg = true) →
      (matchIntent msg).isSome = true) := by
  have hpair : sortedIntents.Pairwise rankLe := by decide
  constructor
  · intro msg r hfind
    obtain ⟨hr, hmin⟩ := find?_min_of_pairwise hpair hfind
    refine ⟨hr, ?_⟩
    intro q hq hmatch
    rcases hmin q (mem_sortedIntents_iff.mpr hq) hmatch with h | h
    · subst h; exact ⟨Nat.le_refl _, fun _ => Nat.le_refl _⟩
    · rcases h with hlt | ⟨heq, hle⟩
      · exact ⟨Nat.le_of_lt hlt, fun habs => absurd (habs ▸ hlt) (Nat.lt_irrefl _)⟩
      · exact ⟨Nat.le_of_eq heq.symm, fun _ => hle⟩
  · intro msg ⟨q, hq, hmatch⟩
    cases hfind : matchIntent msg with
    | some r => rfl
    | none =>
      have := List.find?_eq_none.mp hfind q (mem_sortedIntents_iff.mpr hq)
      exact absurd hmatch (by simpa using this)

/-- "Hvad koster en booking?" contains keywords of both `prices` and
`booking` (equal priority 2); the matcher returns `prices`, the one defined
earlier. -/
theorem claim_C3_priority_then_definition_order_witness :
    intentMatches pricesIntent (normalizeList "Hvad koster en booking?".data) = true ∧
    bookingIntent.priority = pricesIntent.priority ∧
    defPos pricesIntent ≤ defPos bookingIntent :=
  have h := (claim_C3_priority_then_definition_order.1
    (normalizeList "Hvad koster en booking?".data) pricesIntent (by decide))
  ⟨h.1, by decide,
   (h.2 bookingIntent (by decide) (by decide)).2 (by decide)⟩

/-! ## Claim C7 — whole-word matching, never substring-of-a-word -/

theorem beginsWith_append {kw l : List Char} (h : beginsWith kw l = true) :
    ∃ t, l = kw ++ t := by
  induction kw generalizing l with
  | nil => exact ⟨l, rfl⟩
  | cons a as ih =>
    cases l with
    | nil => simp [beginsWith] at h
    | cons b bs =>
      rw [beginsWith, Bool.and_eq_true] at h
      obtain ⟨t, ht⟩ := ih h.2
      exact ⟨t, by rw [ht, List.cons_append, eq_of_beq h.1]⟩

/-- Characters inside a matched occurrence agree with the keyword's. -/
theorem wordAt_of_drop_append {msg kw t : List Char} {i j : Nat}
    (h : msg.drop i = kw ++ t) (hj : j < kw.length) :
    wordAt msg (i + j) = wordAt kw j := by
  unfold wordAt
  rw [← List.getElem?_drop, h, List.getElem?_append_left hj]

/-- Claim C7: keyword matching is whole-word only.  Whenever `kwSearch`
succeeds for a keyword whose first and last characters are word characters
(true of every catalog keyword), the keyword occurs at a position whose left
neighbour is the string edge or a non-word character and whose right neighbour
is the string edge or a non-word character (`wordAt` is `false` out of range);
in particular the normalized message "jeg elsker min bookshelf", in which
"book" occurs only as a proper substring of "bookshelf", matches no intent —
not `booking`. -/
theorem claim_C7_whole_word_only :
    (∀ (kw msg : List Char), kw ≠ [] → wordAt kw 0 = true →
      wordAt kw (kw.length - 1) = true → kwSearch kw msg = true →
      ∃ i, beginsWith kw (msg.drop i) = true ∧
        (i = 0 ∨ wordAt msg (i - 1) = false) ∧
        wordAt msg (i + kw.length) = false) ∧
    (∃ i, beginsWith "book".data
      ((normalizeList "jeg elsker min bookshelf".data).drop i) = true) ∧
    kwSearch "book".data (normalizeList "jeg elsker min bookshelf".data) = false ∧
    matchIntent (normalizeList "jeg elsker min bookshelf".data) = none := by
  refine ⟨?_, ⟨15, by decide⟩, by decide, by decide⟩
  intro kw msg hkw hh hl hsearch
  rw [kwSearch, List.any_eq_true] at hsearch
  obtain ⟨i, _, hcond⟩ := hsearch
  rw [Bool.and_eq_true, Bool.and_eq_true] at hcond
  obtain ⟨⟨hbl, hbr⟩, hbw⟩ := hcond
  obtain ⟨t, ht⟩ := beginsWith_append hbw
  have hklen : 0 < kw.length := List.length_pos.mpr hkw
  have hwi : wordAt msg i = true := by
    have := wordAt_of_drop_append ht hklen
    rw [Nat.add_zero] at this
    rw [this, hh]
  have hwlast : wordAt msg (i + kw.length - 1) = true := by
    have harith : i + kw.length - 1 = i + (kw.length - 1) := by omega
    rw [harith, wordAt_of_drop_append ht (by omega), hl]
  refine ⟨i, hbw, ?_, ?_⟩
  · by_cases hi : i = 0
    · exact Or.inl hi
    · right
      rw [boundaryAt, if_neg (by simpa using hi), hwi] at hbl
      cases hli : wordAt msg (i - 1) with
      | false => rfl
      | true => rw [hli] at hbl; simp at hbl
  · have hne : ¬((i + kw.length == 0) = true) := by
      simp only [beq_iff_eq]
      omega
    rw [boundaryAt, if_neg hne, hwlast] at hbr
    cases hr : wordAt msg (i + kw.length) with
    | false => rfl
    | true => rw [hr] at hbr; simp at hbr

/-- In "Book en tid!" the keyword "book" matches as a whole word: flanked by
the string edge on the left and a space (a non-word character) on the right. -/
theorem claim_C7_whole_word_only_witness :
    ∃ i, beginsWith "book".data ((normalizeList "Book en tid!".data).drop i) = true ∧
      (i = 0 ∨ wordAt (normalizeList "Book en tid!".data) (i - 1) = false) ∧
      wordAt (normalizeList "Book en tid!".data) (i + "book".data.length) = false :=
  claim_C7_whole_word_only.1 "book".data (normalizeList "Book en tid!".data)
    (by decide) (by decide) (by decide) (by decide)

/-! ## Claim C8 — Context Assembler bounds -/

/-- Dropping twice from the front composes. -/
theorem lastN_lastN (l : List Turn) : lastN 5 (lastN 10 l) = lastN 5 l := by
  unfold lastN
  rw [List.drop_drop, List.length_drop]
  congr 1
  omega

/-- Claim C8: the pipeline pulls the 10 most recent stored turns and reverses
them into chronological order (chat.py lines 100–108: a descending query with
`limit 10`, then `reversed`, which equals the last 10 of the chronological
store); the Gemini history built from them is exactly the last 5 stored turns
in order (ai_service.py line 65, `[-5:]`); and the system prompt uses only the
first 10 knowledge entries in stored order (ai_service.py line 167,
`[:10]`). -/
theorem claim_C8_context_bounds :
    (∀ stored : List Turn, ((stored.reverse).take 10).reverse = lastN 10 stored) ∧
    (∀ stored : List Turn,
      buildChatHistory (((stored.reverse).take 10).reverse) =
        (lastN 5 stored).map fun t =>
          { role := if t.role == "assistant" then "model" else "user"
            parts := [t.content] }) ∧
    (∀ cid kb ci, buildSystemPrompt cid kb ci = buildSystemPrompt cid (kb.take 10) ci) := by
  have hwin : ∀ stored : List Turn, ((stored.reverse).take 10).reverse = lastN 10 stored := by
    intro stored
    rw [← List.rtake_eq_reverse_take_reverse]
    rfl
  refine ⟨hwin, ?_, ?_⟩
  · intro stored
    rw [hwin, buildChatHistory, lastN_lastN]
  · intro cid kb ci
    by_cases hkb : kb = []
    · subst hkb; rfl
    · have h10 : kb.take 10 ≠ [] := by
        simp [List.take_eq_nil_iff, hkb]
      simp only [buildSystemPrompt, if_pos hkb, if_pos h10, List.take_take, Nat.min_self]

/-! ## Helper lemmas about the orchestrator's branches -/

/-- Shape of `check_rate_limit`'s two outcomes: `true` means the counter of a
found, under-limit client was incremented; `false` leaves the store
untouched. -/
theorem check_rate_limit_shape {cid : String} {db : DB} {b : Bool} {db1 : DB}
    (h : check_rate_limit cid db = (b, db1)) :
    (b = true → ∃ c, lookupClient db cid = some c ∧
      c.ai_requests_today < c.ai_requests_limit ∧ db1 = updateClient db cid incToday) ∧
    (b = false → db1 = db) := by
  unfold check_rate_limit at h
  cases hc : lookupClient db cid with
  | none => rw [hc] at h; cases h; exact ⟨by simp, fun _ => rfl⟩
  | some c =>
    rw [hc] at h
    dsimp only at h
    by_cases hle : c.ai_requests_limit ≤ c.ai_requests_today
    · rw [if_pos hle] at h; cases h; exact ⟨by simp, fun _ => rfl⟩
    · rw [if_neg hle] at h; cases h
      exact ⟨fun _ => ⟨c, rfl, Nat.not_le.mp hle, rfl⟩, by simp⟩

/-- The gate's `true` outcome, given the looked-up client is under its
limit. -/
theorem check_rate_limit_allows {cid : String} {db : DB} {c : Client}
    (hc : lookupClient db cid = some c)
    (hlt : c.ai_requests_today < c.ai_requests_limit) :
    check_rate_limit cid db = (true, updateClient db cid incToday) := by
  unfold check_rate_limit
  rw [hc]
  dsimp only
  rw [if_neg (Nat.not_le.mpr hlt)]
  rfl

/-- A non-fallback rule response carries the name of a catalog intent. -/
theorem ruleGetResponse_hit {m : String}
    (h : (ruleGetResponse m).is_fallback = false) :
    ∃ it ∈ catalog, (ruleGetResponse m).intent = some it.name := by
  unfold ruleGetResponse at *
  by_cases hm : m = ""
  · rw [if_pos hm] at h; simp at h
  · rw [if_neg hm] at h ⊢
    cases hmi : matchIntent (normalizeList m.data) with
    | none => rw [hmi] at h; simp at h
    | some it =>
      rw [hmi] at h
      exact ⟨it, mem_sortedIntents_iff.mp (List.mem_of_find?_eq_some hmi), rfl⟩

/-- A run in which the history query raises: the top-level `except Exception`
produces the generic error reply; no gate, knowledge or AI activity. -/
theorem chat_history_error_run (db : DB) (req : ChatRequest) (env : Env) (c : Client)
    (h1 : pyStrip req.message ≠ "") (h2 : (pyStrip req.message).data.length ≤ 1000)
    (hc : lookupClient db req.client_id = some c) (hact : c.is_active = true)
    (hh : env.historyE = Except.error ()) :
    chat db req env = (Except.ok catchAllResp, db, ⟨1, 0, 0⟩) := by
  simp only [chat]
  rw [if_neg h1, if_neg (by omega), hc]
  dsimp only
  rw [if_neg (by simp [hact]), hh]

/-- A run in which the gate allows and then the knowledge fetch raises: the
slot stays consumed, the AI capability is never invoked, and the caller gets
the generic error reply. -/
theorem chat_knowledge_error_run (db : DB) (req : ChatRequest) (env : Env)
    (c : Client) (stored : List Turn)
    (h1 : pyStrip req.message ≠ "") (h2 : (pyStrip req.message).data.length ≤ 1000)
    (hc : lookupClient db req.client_id = some c) (hact : c.is_active = true)
    (hh : env.historyE = Except.ok stored)
    (hrule : (ruleGetResponse (pyStrip req.message)).is_fallback = true)
    (hua : req.use_ai = true) (hca : c.use_ai = true)
    (hlt : c.ai_requests_today < c.ai_requests_limit)
    (hk : env.knowledgeE = Except.error ()) :
    chat db req env =
      (Except.ok catchAllResp, updateClient db req.client_id incToday, ⟨1, 1, 0⟩) := by
  simp only [chat]
  rw [if_neg h1, if_neg (by omega), hc]
  dsimp only
  rw [if_neg (by simp [hact]), hh]
  dsimp only
  rw [if_neg (by simp [hrule]), if_pos (by simp [hua, hca]), check_rate_limit_allows hc hlt]
  dsimp only
  rw [hk]

/-- A run in which the gate denies: quota-exceeded reply, no mutation, no
knowledge fetch, no AI call — but the history query has already run. -/
theorem chat_quota_denied_run (db : DB) (req : ChatRequest) (env : Env)
    (c : Client) (stored : List Turn)
    (h1 : pyStrip req.message ≠ "") (h2 : (pyStrip req.message).data.length ≤ 1000)
    (hc : lookupClient db req.client_id = some c) (hact : c.is_active = true)
    (hh : env.historyE = Except.ok stored)
    (hrule : (ruleGetResponse (pyStrip req.message)).is_fallback = true)
    (hua : req.use_ai = true) (hca : c.use_ai = true)
    (hge : c.ai_requests_limit ≤ c.ai_requests_today) :
    chat db req env =
      (Except.ok (mkFallbackResp "Du har nået grænsen for AI-forespørgsler i dag. En medarbejder vil kontakte dig snart."),
       db, ⟨1, 0, 0⟩) := by
  have hcr : check_rate_limit req.client_id db = (false, db) := by
    unfold check_rate_limit
    rw [hc]
    dsimp only
    rw [if_pos hge]
  simp only [chat]
  rw [if_neg h1, if_neg (by omega), hc]
  dsimp only
  rw [if_neg (by simp [hact]), hh]
  dsimp only
  rw [if_neg (by simp [hrule]), if_pos (by simp [hua, hca]), hcr]

/-- A run in which the AI capability raises after the gate allowed and the
knowledge fetch succeeded: canned AI-error reply, slot consumed once, exactly
one AI attempt. -/
theorem chat_ai_error_run (db : DB) (req : ChatRequest) (env : Env)
    (c : Client) (stored : List Turn) (kb : List String) (e : String)
    (h1 : pyStrip req.message ≠ "") (h2 : (pyStrip req.message).data.length ≤ 1000)
    (hc : lookupClient db req.client_id = some c) (hact : c.is_active = true)
    (hh : env.historyE = Except.ok stored)
    (hrule : (ruleGetResponse (pyStrip req.message)).is_fallback = true)
    (hua : req.use_ai = true) (hca : c.use_ai = true)
    (hlt : c.ai_requests_today < c.ai_requests_limit)
    (hk : env.knowledgeE = Except.ok kb)
    (hai : env.aiE = Except.error e) :
    chat db req env =
      (Except.ok (mkFallbackResp "Der opstod en fejl med AI-tjenesten. Lad mig viderestille dig til en medarbejder."),
       updateClient db req.client_id incToday, ⟨1, 1, 1⟩) := by
  simp only [chat]
  rw [if_neg h1, if_neg (by omega), hc]
  dsimp only
  rw [if_neg (by simp [hact]), hh]
  dsimp only
  rw [if_neg (by simp [hrule]), if_pos (by simp [hua, hca]), check_rate_limit_allows hc hlt]
  dsimp only
  rw [hk]
  dsimp only
  unfold geminiGetResponse
  rw [hai]
  rfl

/-! ## Claim C5 — the Validate step -/

/-- Claim C5: an inbound message that strips to the empty string (empty or
whitespace-only; the spec's §6 inbound `message` is the trimmed string)
terminates immediately with the dedicated "write something" reply,
`is_fallback = true` and no intent; a message whose trimmed form exceeds 1000
characters terminates with the canned "too long" reply, `is_fallback = true`.
In both cases the database is untouched and no collaborator (history,
knowledge, AI — in particular neither the rule catalog's generic fallback nor
the AI path) is ever reached, as the zero call counts show. -/
theorem claim_C5_validate_terminal :
    (∀ (db : DB) (req : ChatRequest) (env : Env), pyStrip req.message = "" →
      chat db req env =
        (Except.ok (mkFallbackResp "Skriv gerne en besked, så hjælper jeg 😊"), db, ⟨0, 0, 0⟩)) ∧
    (∀ (db : DB) (req : ChatRequest) (env : Env), pyStrip req.message ≠ "" →
      1000 < (pyStrip req.message).data.length →
      chat db req env =
        (Except.ok (mkFallbackResp "Beskeden er for lang. Hold den venligst under 1000 tegn."), db, ⟨0, 0, 0⟩)) := by
  constructor
  · intro db req env h
    simp only [chat]
    rw [if_pos h]
  · intro db req env h1 h2
    simp only [chat]
    rw [if_neg h1, if_pos h2]

set_option maxRecDepth 10000 in
/-- A whitespace-only message and a 1001-character message, run concretely. -/
theorem claim_C5_validate_terminal_witness :
    chat [("t", clientT)] { message := "   ", client_id := "t", session_id := "s", use_ai := true } envBase =
      (Except.ok (mkFallbackResp "Skriv gerne en besked, så hjælper jeg 😊"), [("t", clientT)], ⟨0, 0, 0⟩) ∧
    chat [("t", clientT)] { message := longMsg, client_id := "t", session_id := "s", use_ai := true } envBase =
      (Except.ok (mkFallbackResp "Beskeden er for lang. Hold den venligst under 1000 tegn."), [("t", clientT)], ⟨0, 0, 0⟩) :=
  ⟨claim_C5_validate_terminal.1 _ _ _ (by decide),
   claim_C5_validate_terminal.2 _ _ _ (by decide) (by decide)⟩

/-! ## Claim C4 — error policy at the orchestrator boundary (corrected) -/

/-- Counterexample to claim C4 as stated: for a well-formed message sent with
an unknown `client_id`, the handler re-raises `HTTPException(404)` — an error
IS propagated to the caller instead of being converted into a fallback
reply. -/
theorem claim_C4_counterexample :
    (chat [] reqHej envBase).1 = Except.error { status := 404, detail := "Client not found" } := by
  decide

/-- Claim C4 as amended: the only errors the pipeline ever propagates are the
two deliberate `HTTPException`s — 404 for an unknown client and 403 for an
inactive one; every other run yields a valid reply, and an unexpected internal
fault (a raising history store) is caught by the top-level handler and
converted into the canned error reply `catchAllResp` (which has
`is_fallback = true` and no intent, but is a dedicated error text, not the
final "didn't understand" fallback). -/
theorem claim_C4_amended_error_policy :
    (∀ (db : DB) (req : ChatRequest) (env : Env) (h : HErr),
      (chat db req env).1 = Except.error h →
      (h = ⟨404, "Client not found"⟩ ∧ lookupClient db req.client_id = none) ∨
      (h = ⟨403, "Client is not active"⟩ ∧
        ∃ c, lookupClient db req.client_id = some c ∧ c.is_active = false)) ∧
    (∀ (db : DB) (req : ChatRequest) (env : Env) (c : Client),
      pyStrip req.message ≠ "" → (pyStrip req.message).data.length ≤ 1000 →
      lookupClient db req.client_id = some c → c.is_active = true →
      env.historyE = Except.error () →
      (chat db req env).1 = Except.ok catchAllResp ∧ catchAllResp.is_fallback = true) := by
  constructor
  · intro db req env h hchat
    simp only [chat] at hchat
    repeat' split at hchat
    all_goals simp_all
  · intro db req env c h1 h2 hc hact hh
    rw [chat_history_error_run db req env c h1 h2 hc hact hh]
    exact ⟨rfl, rfl⟩

/-- The amended C4, run concretely: a storage failure for a known active
client yields the canned error reply, not an exception. -/
theorem claim_C4_amended_error_policy_witness :
    (chat [("t", clientT)] reqGibberish
        { historyE := Except.error (), knowledgeE := Except.ok [], aiE := Except.ok "x" }).1 =
      Except.ok catchAllResp ∧ catchAllResp.is_fallback = true :=
  claim_C4_amended_error_policy.2 _ _ _ clientT (by decide) (by decide) rfl rfl rfl

/-! ## Claim C9 — store failure handling (corrected) -/

/-- Counterexample to claim C9 as stated: on an AI-eligible request whose
history query raises, the orchestrator does NOT proceed with empty context —
the AI capability is invoked zero times and the outcome is the generic error
reply, which is neither an AI reply nor the AI-failure apology. -/
theorem claim_C9_counterexample :
    chat [("t", clientT)] reqGibberish
        { historyE := Except.error (), knowledgeE := Except.ok [], aiE := Except.ok "Her er svaret" } =
      (Except.ok catchAllResp, [("t", clientT)], ⟨1, 0, 0⟩) := by
  decide

/-- Claim C9 as amended: a failing history or knowledge store does not abort
the request with an error — the exception is caught at the orchestrator
boundary and converted into the generic error reply (`is_fallback = true`) —
but the pipeline does not degrade to empty context either: the AI capability
is invoked zero times.  A history failure leaves the store untouched; a
knowledge failure happens after the gate consumed, so the slot stays spent. -/
theorem claim_C9_amended_store_failure :
    (∀ (db : DB) (req : ChatRequest) (env : Env) (c : Client),
      pyStrip req.message ≠ "" → (pyStrip req.message).data.length ≤ 1000 →
      lookupClient db req.client_id = some c → c.is_active = true →
      env.historyE = Except.error () →
      chat db req env = (Except.ok catchAllResp, db, ⟨1, 0, 0⟩)) ∧
    (∀ (db : DB) (req : ChatRequest) (env : Env) (c : Client) (stored : List Turn),
      pyStrip req.message ≠ "" → (pyStrip req.message).data.length ≤ 1000 →
      lookupClient db req.client_id = some c → c.is_active = true →
      env.historyE = Except.ok stored →
      (ruleGetResponse (pyStrip req.message)).is_fallback = true →
      req.use_ai = true → c.use_ai = true →
      c.ai_requests_today < c.ai_requests_limit →
      env.knowledgeE = Except.error () →
      chat db req env =
        (Except.ok catchAllResp, updateClient db req.client_id incToday, ⟨1, 1, 0⟩)) :=
  ⟨chat_history_error_run, chat_knowledge_error_run⟩

/-- The amended C9 at a concrete knowledge-store failure. -/
theorem claim_C9_amended_store_failure_witness :
    chat [("t", clientT)] reqGibberish
        { historyE := Except.ok [], knowledgeE := Except.error (), aiE := Except.ok "x" } =
      (Except.ok catchAllResp,
       updateClient [("t", clientT)] "t" incToday, ⟨1, 1, 0⟩) :=
  claim_C9_amended_store_failure.2 _ _ _ clientT [] (by decide) (by decide) rfl rfl rfl
    (by decide) rfl rfl (by decide) rfl

/-! ## Claim C6 — quota-denied path (corrected) -/

/-- Counterexample to claim C6 as stated: in a gate-denied run the call counts
are `⟨1, 0, 0⟩` — the AI capability and the knowledge fetch are indeed never
invoked, but the conversation-history half of the context HAS been pulled
(one history query), because chat.py fetches history before the rule attempt;
so "nor is the context assembled" fails. -/
theorem claim_C6_counterexample :
    chat [("t", clientQuota)] reqGibberish envBase =
      (Except.ok (mkFallbackResp "Du har nået grænsen for AI-forespørgsler i dag. En medarbejder vil kontakte dig snart."),
       [("t", clientQuota)], ⟨1, 0, 0⟩) ∧
    (chat [("t", clientQuota)] reqGibberish envBase).2.2.history ≠ 0 := by
  constructor
  · decide
  · decide

/-- Claim C6 as amended: when no rule matched, both AI flags are set and the
Usage Gate denies, the pipeline terminates with the canned quota-exceeded
reply (`is_fallback = true`), the counter is not mutated, and neither the AI
capability nor the knowledge fetch is invoked (zero calls) — but the history
query has already run once, as it does on every request that reaches the
client-lookup stage. -/
theorem claim_C6_amended_quota_denied :
    ∀ (db : DB) (req : ChatRequest) (env : Env) (c : Client) (stored : List Turn),
      pyStrip req.message ≠ "" → (pyStrip req.message).data.length ≤ 1000 →
      lookupClient db req.client_id = some c → c.is_active = true →
      env.historyE = Except.ok stored →
      (ruleGetResponse (pyStrip req.message)).is_fallback = true →
      req.use_ai = true → c.use_ai = true →
      c.ai_requests_limit ≤ c.ai_requests_today →
      chat db req env =
        (Except.ok (mkFallbackResp "Du har nået grænsen for AI-forespørgsler i dag. En medarbejder vil kontakte dig snart."),
         db, ⟨1, 0, 0⟩) :=
  chat_quota_denied_run

/-- The amended C6 at a concrete exhausted-quota run. -/
theorem claim_C6_amended_quota_denied_witness :
    chat [("t", clientQuota)] { message := "uforståeligt vrøvl", client_id := "t", session_id := "s", use_ai := true } envBase =
      (Except.ok (mkFallbackResp "Du har nået grænsen for AI-forespørgsler i dag. En medarbejder vil kontakte dig snart."),
       [("t", clientQuota)], ⟨1, 0, 0⟩) :=
  claim_C6_amended_quota_denied _ _ _ clientQuota [] (by decide) (by decide) rfl rfl rfl
    (by decide) rfl rfl (by decide)

/-! ## Claim C2 — usage accounting and AI-failure handling (corrected) -/

/-- Counterexample to claim C2 as stated: when the knowledge fetch raises
after the gate allowed, the per-tenant counter has been incremented (the
commit happened inside `check_rate_limit`) although the AI capability was
invoked zero times — so "incremented ... and is never incremented otherwise
(than when an AI call is actually issued)" fails. -/
theorem claim_C2_counterexample :
    chat [("t", clientT)] reqGibberish
        { historyE := Except.ok [], knowledgeE := Except.error (), aiE := Except.ok "Her er svaret" } =
      (Except.ok catchAllResp, [("t", incToday clientT)], ⟨1, 1, 0⟩) ∧
    (incToday clientT).ai_requests_today = clientT.ai_requests_today + 1 := by
  constructor
  · decide
  · decide

/-- Claim C2 as amended: per request the AI capability is attempted at most
once (never retried); the counter store changes only when the Usage Gate
allows, and then by exactly one increment for the request's tenant; whenever
an AI call is actually issued the slot was consumed exactly once; and when the
AI capability raises or times out the request terminates with the canned
AI-error reply (`is_fallback = true`, `is_ai = false`, via `mkFallbackResp`),
the failure is not propagated, and the slot remains consumed exactly once.
(The gate's increment can also stand without an AI call in one corner: a
knowledge-store failure between gate and AI call, see the counterexample.) -/
theorem claim_C2_amended_usage_accounting :
    (∀ (db : DB) (req : ChatRequest) (env : Env), ((chat db req env).2.2).ai ≤ 1) ∧
    (∀ (db : DB) (req : ChatRequest) (env : Env),
      (chat db req env).2.1 ≠ db →
      ∃ c, lookupClient db req.client_id = some c ∧
        c.ai_requests_today < c.ai_requests_limit ∧
        (chat db req env).2.1 = updateClient db req.client_id incToday) ∧
    (∀ (db : DB) (req : ChatRequest) (env : Env),
      ((chat db req env).2.2).ai = 1 →
      ∃ c, lookupClient db req.client_id = some c ∧
        c.ai_requests_today < c.ai_requests_limit ∧
        (chat db req env).2.1 = updateClient db req.client_id incToday) ∧
    (∀ (db : DB) (req : ChatRequest) (env : Env) (c : Client) (stored : List Turn)
      (kb : List String) (e : String),
      pyStrip req.message ≠ "" → (pyStrip req.message).data.length ≤ 1000 →
      lookupClient db req.client_id = some c → c.is_active = true →
      env.historyE = Except.ok stored →
      (ruleGetResponse (pyStrip req.message)).is_fallback = true →
      req.use_ai = true → c.use_ai = true →
      c.ai_requests_today < c.ai_requests_limit →
      env.knowledgeE = Except.ok kb →
      env.aiE = Except.error e →
      chat db req env =
        (Except.ok (mkFallbackResp "Der opstod en fejl med AI-tjenesten. Lad mig viderestille dig til en medarbejder."),
         updateClient db req.client_id incToday, ⟨1, 1, 1⟩)) := by
  refine ⟨?_, ?_, ?_, chat_ai_error_run⟩
  · intro db req env
    simp only [chat]
    repeat' split
    all_goals simp
  · intro db req env
    rcases hcr : check_rate_limit req.client_id db with ⟨b, db1⟩
    simp only [chat]
    rw [hcr]
    cases b
    case false =>
      have hdb : db1 = db := (check_rate_limit_shape hcr).2 rfl
      dsimp only
      repeat' split
      all_goals intro hne
      all_goals first
        | exact absurd rfl hne
        | exact absurd hdb hne
    case true =>
      obtain ⟨c, hc, hlt, hdb⟩ := (check_rate_limit_shape hcr).1 rfl
      dsimp only
      repeat' split
      all_goals intro hne
      all_goals first
        | exact absurd rfl hne
        | exact ⟨c, hc, hlt, hdb⟩
  · intro db req env
    rcases hcr : check_rate_limit req.client_id db with ⟨b, db1⟩
    simp only [chat]
    rw [hcr]
    cases b
    case false =>
      dsimp only
      repeat' split
      all_goals intro hai
      all_goals simp at hai
    case true =>
      obtain ⟨c, hc, hlt, hdb⟩ := (check_rate_limit_shape hcr).1 rfl
      dsimp only
      repeat' split
      all_goals intro hai
      all_goals first
        | exact ⟨c, hc, hlt, hdb⟩
        | simp at hai

/-- The amended C2 at a concrete failing AI call: the apology reply is
returned, the counter went from 0 to 1, and exactly one AI attempt was
made. -/
theorem claim_C2_amended_usage_accounting_witness :
    chat [("t", clientT)] reqGibberish
        { historyE := Except.ok [], knowledgeE := Except.ok [], aiE := Except.error "timeout" } =
      (Except.ok (mkFallbackResp "Der opstod en fejl med AI-tjenesten. Lad mig viderestille dig til en medarbejder."),
       updateClient [("t", clientT)] "t" incToday, ⟨1, 1, 1⟩) :=
  claim_C2_amended_usage_accounting.2.2.2 _ _ _ clientT [] [] "timeout"
    (by decide) (by decide) rfl rfl rfl (by decide) rfl rfl (by decide) rfl rfl

/-! ## Claim C10 — `is_fallback` ↔ no intent; `tokens_used` only on AI success -/

/-- Claim C10: in every `ChatResponse` the pipeline returns, `is_fallback` is
`true` exactly when `intent` is `none`; `tokens_used` is set only when
`is_ai = true` and `is_fallback = false` (the successful AI outcome); and
every non-fallback outcome carries an intent name — `"ai_response"` or the
name of a catalog intent. -/
theorem claim_C10_fallback_iff_no_intent :
    ∀ (db : DB) (req : ChatRequest) (env : Env) (resp : ChatResponse),
      (chat db req env).1 = Except.ok resp →
      (resp.is_fallback = true ↔ resp.intent = none) ∧
      (resp.tokens_used ≠ none → resp.is_ai = true ∧ resp.is_fallback = false) ∧
      (resp.is_fallback = false →
        resp.intent = some "ai_response" ∨ ∃ it ∈ catalog, resp.intent = some it.name) := by
  intro db req env resp
  simp only [chat]
  repeat' split
  all_goals intro h
  all_goals first
    | (injection h with h'
       subst h'
       first
         | (simp [mkFallbackResp, catchAllResp]; done)
         | (obtain ⟨it, hit, hint⟩ := ruleGetResponse_hit (by assumption)
            exact ⟨by simp [hint], by simp, fun _ => Or.inr ⟨it, hit, hint⟩⟩)
         | (unfold geminiGetResponse
            split <;> simp [mkFallbackResp]))
    | simp at h

/-- C10 at two concrete outcomes: the empty-message fallback (no intent) and
a successful AI reply (intent `"ai_response"`, tokens set). -/
theorem claim_C10_fallback_iff_no_intent_witness :
    ((mkFallbackResp "Skriv gerne en besked, så hjælper jeg 😊").is_fallback = true ↔
      (mkFallbackResp "Skriv gerne en besked, så hjælper jeg 😊").intent = none) ∧
    ((mkFallbackResp "Skriv gerne en besked, så hjælper jeg 😊").tokens_used ≠ none →
      (mkFallbackResp "Skriv gerne en besked, så hjælper jeg 😊").is_ai = true ∧
      (mkFallbackResp "Skriv gerne en besked, så hjælper jeg 😊").is_fallback = false) ∧
    ((mkFallbackResp "Skriv gerne en besked, så hjælper jeg 😊").is_fallback = false →
      (mkFallbackResp "Skriv gerne en besked, så hjælper jeg 😊").intent = some "ai_response" ∨
      ∃ it ∈ catalog,
        (mkFallbackResp "Skriv gerne en besked, så hjælper jeg 😊").intent = some it.name) :=
  claim_C10_fallback_iff_no_intent []
    { message := "", client_id := "t", session_id := "s", use_ai := true } envBase
    (mkFallbackResp "Skriv gerne en besked, så hjælper jeg 😊") (by decide)
